import Mathlib

/-!
# MLBAPP — verification of the trend / hit-rate / prediction core

A shallow embedding of the computational core of `src/MLBAPP.py`:

* `get_statcast_data` (lines 18–48): the Event Classifier.  Raw statcast rows
  are filtered to those with a non-null `events` label; per-row outcome flags
  `1B/2B/3B/HR` are set by exact string equality with the four canonical
  labels, `TB`/`H` are derived linear combinations, and `RBI` is the numeric
  parse of the `rbi` column with absence / parse failure defaulting to `0`.
* `game_stats` (lines 164–165): the Aggregator.  Classified events are grouped
  by the pair `(game_date, opponent)` (pandas `groupby` sorts group keys
  ascending, lexicographically on the pair), the numeric fields are summed per
  group, and the caller takes the most recent `K` lines re-sorted ascending
  (`sort_values(ascending=False).head(K).sort_values(...)`).
* `calculate_hit_rates` (lines 69–79): the Trend Evaluator.  For a category
  column and threshold `t`, the hit mask is `value ≥ t`; for each window
  `W ∈ {10, 5, 3}` the last `W` entries (`iloc[-W:]`, which yields the whole
  list when fewer than `W` entries exist) are summed and divided by the fixed
  denominator `W`, the percentage formatted with `:.0f` (round to nearest,
  ties to even — the float default).
* `predict_next_game_stat` (lines 81–87): the Predictor, the fixed
  `0.4/0.3/0.3` blend rounded to two decimals (Python `round`, ties to even).
* `stat_line` (lines 198–202): the three input averages fed to the Predictor.
  `mean()` of an empty pandas column is NaN, which we model with `Option`
  (`none` = NaN/undefined); only the `vs_team` average is guarded by
  `if not df_filtered.empty else 0`.

Dates and team identifiers are modelled as `Nat`: the source carries them as
`YYYY-MM-DD` date strings and team abbreviations, both ordered
lexicographically by pandas, and only their order and equality matter to the
computations verified here.
-/

namespace MLBAPP

/-- One raw statcast row, as consumed by `get_statcast_data` after the
provider call: the inning half, the two team columns, the nullable `events`
outcome label, and the `rbi` value (`none` models both NaN and a value that
`pd.to_numeric(..., errors="coerce")` fails to parse). -/
structure RawEvent where
  game_date : Nat
  inning_topbot : String
  home_team : Nat
  away_team : Nat
  events : Option String
  rbi : Option Int
deriving DecidableEq, Repr

/-- The raw dataframe: its rows plus the two column-presence facts the code
branches on (`"events" not in df.columns`, `"rbi" in df.columns`). -/
structure RawData where
  hasEventsCol : Bool
  hasRbiCol : Bool
  rows : List RawEvent
deriving DecidableEq, Repr

/-- A classified event: the full column set `get_statcast_data` promises
(`game_date, 1B, 2B, 3B, HR, TB, H, RBI, opponent`, plus `player_team`).
`B1/B2/B3` stand for the source's `1B/2B/3B` columns. -/
structure ClassifiedEvent where
  game_date : Nat
  player_team : Nat
  opponent : Nat
  B1 : Int
  B2 : Int
  B3 : Int
  HR : Int
  TB : Int
  H : Int
  RBI : Int
deriving DecidableEq, Repr

/-- Per-row classification (lines 29–46 of the source), for a row whose
`events` label is `e` (non-null rows only — the null ones were dropped by
`df[df["events"].notnull()]`).  `hasRbi` is whether the `rbi` column exists. -/
def classifyRow (hasRbi : Bool) (r : RawEvent) (e : String) : ClassifiedEvent :=
  let b1 : Int := if e = "single" then 1 else 0
  let b2 : Int := if e = "double" then 1 else 0
  let b3 : Int := if e = "triple" then 1 else 0
  let hr : Int := if e = "home_run" then 1 else 0
  { game_date := r.game_date
    player_team := if r.inning_topbot = "Top" then r.away_team else r.home_team
    opponent := if r.inning_topbot = "Top" then r.home_team else r.away_team
    B1 := b1
    B2 := b2
    B3 := b3
    HR := hr
    TB := b1 + b2 * 2 + b3 * 3 + hr * 4
    H := b1 + b2 + b3 + hr
    RBI := if hasRbi then r.rbi.getD 0 else 0 }

/-- The Event Classifier, `get_statcast_data` (lines 18–48): empty input or a
missing `events` column yields the empty (but fully-typed) result; otherwise
null-outcome rows are dropped and the rest classified. -/
def get_statcast_data (d : RawData) : List ClassifiedEvent :=
  if d.rows.isEmpty || !d.hasEventsCol then []
  else d.rows.filterMap fun r => r.events.map fun e => classifyRow d.hasRbiCol r e

/-- The `groupby` key of line 164: the `(game_date, opponent)` pair. -/
def keyOf (c : ClassifiedEvent) : Nat × Nat := (c.game_date, c.opponent)

/-- Lexicographic order on group keys — the ascending order pandas `groupby`
emits groups in. -/
def keyLE (a b : Nat × Nat) : Prop :=
  a.1 < b.1 ∨ (a.1 = b.1 ∧ a.2 ≤ b.2)

instance : DecidableRel keyLE := fun a b => by
  unfold keyLE; infer_instance

instance : IsTotal (Nat × Nat) keyLE :=
  ⟨fun a b => by unfold keyLE; omega⟩

instance : IsTrans (Nat × Nat) keyLE :=
  ⟨fun a b c => by unfold keyLE; omega⟩

/-- One per-game stat line: the `(game_date, opponent)` key and the summed
numeric columns. -/
structure GameStatLine where
  game_date : Nat
  opponent : Nat
  B1 : Int
  B2 : Int
  B3 : Int
  HR : Int
  TB : Int
  H : Int
  RBI : Int
deriving DecidableEq, Repr

/-- The per-group sum of line 164: all events with key `k`, numeric fields
summed. -/
def sumGroup (k : Nat × Nat) (events : List ClassifiedEvent) : GameStatLine :=
  let g := events.filter fun c => decide (keyOf c = k)
  { game_date := k.1
    opponent := k.2
    B1 := (g.map (·.B1)).sum
    B2 := (g.map (·.B2)).sum
    B3 := (g.map (·.B3)).sum
    HR := (g.map (·.HR)).sum
    TB := (g.map (·.TB)).sum
    H := (g.map (·.H)).sum
    RBI := (g.map (·.RBI)).sum }

/-- The distinct group keys in ascending (lexicographic) order. -/
def groupKeys (events : List ClassifiedEvent) : List (Nat × Nat) :=
  ((events.map keyOf).dedup).insertionSort keyLE

/-- The Aggregator, line 164: group by `(game_date, opponent)`, sum the
numeric columns, one line per distinct key, keys ascending. -/
def game_stats (events : List ClassifiedEvent) : List GameStatLine :=
  (groupKeys events).map fun k => sumGroup k events

/-- Line 165: `sort_values("game_date", ascending=False).head(K)
.sort_values("game_date")` applied to the (ascending) group result — i.e. the
last `K` lines of the ascending list.  The source uses `K = 10`. -/
def last_games (k : Nat) (lines : List GameStatLine) : List GameStatLine :=
  ((lines.reverse).take k).reverse

/-- One row of the hit-rate table (lines 73–78): for each window the hit
count, the fixed denominator, and the rounded percentage. -/
structure TrendRow where
  count10 : Nat
  denom10 : Nat
  pct10 : Nat
  count5 : Nat
  denom5 : Nat
  pct5 : Nat
  count3 : Nat
  denom3 : Nat
  pct3 : Nat
deriving DecidableEq, Repr

/-- `hits.iloc[-w:]`: the last `w` entries of the hit mask (all of them when
fewer than `w` exist). -/
def ilocLast (w : Nat) (l : List Bool) : List Bool :=
  l.drop (l.length - w)

/-- The percentage `(c / w) * 100` formatted with `:.0f`: round to nearest,
ties to even (the IEEE default Python's float formatting uses).  For the
denominators 10, 5, 3 used here no tie can occur. -/
def pctHalfEven (c w : Nat) : Nat :=
  if 2 * (100 * c % w) < w then 100 * c / w
  else if w < 2 * (100 * c % w) then 100 * c / w + 1
  else if (100 * c / w) % 2 = 0 then 100 * c / w else 100 * c / w + 1

/-- One trend row (lines 72–78) for the category column `values` (the games
in chronological order) and threshold `t`: `hits = values ≥ t`, then
`hits.iloc[-w:].sum()/w` for `w = 10, 5, 3`. -/
def hit_rate_row (values : List Int) (t : Int) : TrendRow :=
  let hits := values.map fun v => decide (t ≤ v)
  let c10 := (ilocLast 10 hits).count true
  let c5 := (ilocLast 5 hits).count true
  let c3 := (ilocLast 3 hits).count true
  { count10 := c10, denom10 := 10, pct10 := pctHalfEven c10 10
    count5 := c5, denom5 := 5, pct5 := pctHalfEven c5 5
    count3 := c3, denom3 := 3, pct3 := pctHalfEven c3 3 }

/-- The Trend Evaluator, `calculate_hit_rates` (lines 69–79): one row per
threshold. -/
def calculate_hit_rates (values : List Int) (trend_values : List Int) : List TrendRow :=
  trend_values.map (hit_rate_row values)

/-- Round a rational to the nearest integer, ties to even — Python's `round`. -/
def roundHalfEven (x : ℚ) : ℤ :=
  if x - (⌊x⌋ : ℚ) < 1 / 2 then ⌊x⌋
  else if 1 / 2 < x - (⌊x⌋ : ℚ) then ⌊x⌋ + 1
  else if ⌊x⌋ % 2 = 0 then ⌊x⌋ else ⌊x⌋ + 1

/-- Python's `round(x, 2)`: round `100 x` to the nearest integer (ties to
even) and divide back. -/
def round2 (x : ℚ) : ℚ :=
  (roundHalfEven (x * 100) : ℚ) / 100

/-- The Predictor, `predict_next_game_stat` (lines 81–87): the fixed
`[0.4, 0.3, 0.3]` blend of the three averages, rounded to two decimals. -/
def predict_next_game_stat (season_avg vs_team_avg recent_avg : ℚ) : ℚ :=
  round2 (season_avg * 0.4 + vs_team_avg * 0.3 + recent_avg * 0.3)

/-- Pandas `Series.mean()`: NaN (`none`) on an empty column. -/
def meanQ (l : List ℚ) : Option ℚ :=
  if l.isEmpty then none else some (l.sum / l.length)

/-- The distinct game dates of a classified-event list, ascending — the keys
of `groupby("game_date")`. -/
def dateKeys (events : List ClassifiedEvent) : List Nat :=
  ((events.map (·.game_date)).dedup).insertionSort (· ≤ ·)

/-- `df.groupby("game_date")[[cat]].sum()[cat]` for the category column read
off by `f`: the per-date sums, as rationals. -/
def perDateSums (f : ClassifiedEvent → Int) (events : List ClassifiedEvent) : List ℚ :=
  (dateKeys events).map fun d =>
    (((events.filter fun c => decide (c.game_date = d)).map f).sum : ℤ)

/-- Line 199: `statcast_df.groupby("game_date")[[cat]].sum()[cat].mean()`. -/
def season_avg (f : ClassifiedEvent → Int) (statcast : List ClassifiedEvent) : Option ℚ :=
  meanQ (perDateSums f statcast)

/-- Line 200: the opponent-filtered average, guarded by
`if not df_filtered.empty else 0`. -/
def vs_team_avg (f : ClassifiedEvent → Int) (df_filtered : List ClassifiedEvent) : Option ℚ :=
  if df_filtered.isEmpty then some 0 else meanQ (perDateSums f df_filtered)

/-- Line 201: `game_stats[cat].mean()`, where `game_stats` is the last-10
aggregate of the *filtered* events (lines 164–165). -/
def recent_avg (g : GameStatLine → Int) (df_filtered : List ClassifiedEvent) : Option ℚ :=
  meanQ ((last_games 10 (game_stats df_filtered)).map fun l => ((g l : ℤ) : ℚ))

/-- Lines 199–202 for one category (field readers `f` on events, `g` on stat
lines): the three averages fed to the Predictor.  A NaN input (`none`)
propagates through the arithmetic of `predict_next_game_stat`, so the result
is `none` unless all three inputs are defined. -/
def stat_line (f : ClassifiedEvent → Int) (g : GameStatLine → Int)
    (statcast df_filtered : List ClassifiedEvent) : Option ℚ :=
  match season_avg f statcast, vs_team_avg f df_filtered, recent_avg g df_filtered with
  | some s, some v, some r => some (predict_next_game_stat s v r)
  | _, _, _ => none

/-- Spec-side count (§4.3): the number of hits — games whose category value
meets the threshold — among the last `w` games. -/
def hitsInLast (w : Nat) (values : List Int) (t : Int) : Nat :=
  (values.rtake w).countP fun v => decide (t ≤ v)

/- ### Shared helper lemmas -/

theorem count_ilocLast_map (p : Int → Bool) (l : List Int) (w : Nat) :
    (ilocLast w (l.map p)).count true = (l.rtake w).countP p := by
  simp [ilocLast, List.rtake, ← List.map_drop, List.count_eq_countP, List.countP_map,
    Function.comp_def]

theorem hit_rate_row_count10 (values : List Int) (t : Int) :
    (hit_rate_row values t).count10 = hitsInLast 10 values t :=
  count_ilocLast_map _ values 10

theorem hit_rate_row_count5 (values : List Int) (t : Int) :
    (hit_rate_row values t).count5 = hitsInLast 5 values t :=
  count_ilocLast_map _ values 5

theorem hit_rate_row_count3 (values : List Int) (t : Int) :
    (hit_rate_row values t).count3 = hitsInLast 3 values t :=
  count_ilocLast_map _ values 3

/- ### Claim theorems -/

/-- C1: the Trend Evaluator marks a game as a hit exactly when its category
value is `≥ t` (the hit count of each window is the count of such games among
the last `W`), the denominator of window `W` is the fixed `W` (even when fewer
games are available — the statement holds for *every* `values`, short lists
included), the reported percentage is the rounded value of
`count/W · 100` (within `1/2` of the exact ratio, i.e. nearest), each
threshold of the requested list gets its row, and on the concrete games
`[0,1,0,2,1]` with threshold 1 the last-3 result is 2/3 (67%) and the last-5
result is 3/5 (60%). -/
theorem C1_trend_hit_rates :
    (∀ (values : List Int) (t : Int),
      (hit_rate_row values t).count10 = hitsInLast 10 values t ∧
      (hit_rate_row values t).denom10 = 10 ∧
      (hit_rate_row values t).pct10 = pctHalfEven (hitsInLast 10 values t) 10 ∧
      (hit_rate_row values t).count5 = hitsInLast 5 values t ∧
      (hit_rate_row values t).denom5 = 5 ∧
      (hit_rate_row values t).pct5 = pctHalfEven (hitsInLast 5 values t) 5 ∧
      (hit_rate_row values t).count3 = hitsInLast 3 values t ∧
      (hit_rate_row values t).denom3 = 3 ∧
      (hit_rate_row values t).pct3 = pctHalfEven (hitsInLast 3 values t) 3) ∧
    (∀ c : Nat, 20 * pctHalfEven c 10 ≤ 200 * c + 10 ∧ 200 * c ≤ 20 * pctHalfEven c 10 + 10) ∧
    (∀ c : Nat, 10 * pctHalfEven c 5 ≤ 200 * c + 5 ∧ 200 * c ≤ 10 * pctHalfEven c 5 + 5) ∧
    (∀ c : Nat, 6 * pctHalfEven c 3 ≤ 200 * c + 3 ∧ 200 * c ≤ 6 * pctHalfEven c 3 + 3) ∧
    (∀ (values ts : List Int) (t : Int), t ∈ ts →
      hit_rate_row values t ∈ calculate_hit_rates values ts) ∧
    (hit_rate_row [0, 1, 0, 2, 1] 1).count3 = 2 ∧
    (hit_rate_row [0, 1, 0, 2, 1] 1).pct3 = 67 ∧
    (hit_rate_row [0, 1, 0, 2, 1] 1).count5 = 3 ∧
    (hit_rate_row [0, 1, 0, 2, 1] 1).pct5 = 60 := by
  refine ⟨fun values t => ?_, fun c => ?_, fun c => ?_, fun c => ?_,
    fun values ts t ht => List.mem_map_of_mem _ ht, by decide, by decide, by decide, by decide⟩
  · refine ⟨hit_rate_row_count10 values t, rfl, ?_, hit_rate_row_count5 values t, rfl, ?_,
      hit_rate_row_count3 values t, rfl, ?_⟩
    · exact congrArg (pctHalfEven · 10) (hit_rate_row_count10 values t)
    · exact congrArg (pctHalfEven · 5) (hit_rate_row_count5 values t)
    · exact congrArg (pctHalfEven · 3) (hit_rate_row_count3 values t)
  · unfold pctHalfEven; split_ifs <;> omega
  · unfold pctHalfEven; split_ifs <;> omega
  · unfold pctHalfEven; split_ifs <;> omega

/-- Witness for C1 at concrete inputs: threshold 1 out of the list `[1, 2]`
on the games `[0,1,0,2,1]`. -/
theorem C1_trend_hit_rates_witness :
    hit_rate_row [0, 1, 0, 2, 1] 1 ∈ calculate_hit_rates [0, 1, 0, 2, 1] [1, 2] ∧
    (hit_rate_row [0, 1, 0, 2, 1] 1).count3 = 2 :=
  ⟨C1_trend_hit_rates.2.2.2.2.1 [0, 1, 0, 2, 1] [1, 2] 1 (by decide),
    C1_trend_hit_rates.2.2.2.2.2.1⟩

/-- C2: the Predictor returns `round(0.4·season + 0.3·vs_team + 0.3·recent, 2)`,
and on the inputs `(0.30, 0.50, 0.20)` it returns `0.33`. -/
theorem C2_predictor_formula :
    (∀ s v r : ℚ, predict_next_game_stat s v r = round2 (0.4 * s + 0.3 * v + 0.3 * r)) ∧
    predict_next_game_stat 0.30 0.50 0.20 = 0.33 := by
  constructor
  · intro s v r
    unfold predict_next_game_stat
    congr 1
    ring
  · norm_num [predict_next_game_stat, round2, roundHalfEven]

/-- C3: every classified event has 0/1-valued outcome flags, at most one flag
set, and `TB`/`H` the stated linear functions of the flags. -/
theorem C3_classified_flags (d : RawData) (c : ClassifiedEvent)
    (hc : c ∈ get_statcast_data d) :
    (c.B1 = 0 ∨ c.B1 = 1) ∧ (c.B2 = 0 ∨ c.B2 = 1) ∧ (c.B3 = 0 ∨ c.B3 = 1) ∧
    (c.HR = 0 ∨ c.HR = 1) ∧ c.B1 + c.B2 + c.B3 + c.HR ≤ 1 ∧
    c.TB = 1 * c.B1 + 2 * c.B2 + 3 * c.B3 + 4 * c.HR ∧
    c.H = c.B1 + c.B2 + c.B3 + c.HR := by
  unfold get_statcast_data at hc
  split at hc
  · simp at hc
  · obtain ⟨r, hr, hmap⟩ := List.mem_filterMap.mp hc
    obtain ⟨e, he, rfl⟩ := Option.map_eq_some'.mp hmap
    unfold classifyRow
    by_cases h1 : e = "single" <;> by_cases h2 : e = "double" <;>
      by_cases h3 : e = "triple" <;> by_cases h4 : e = "home_run" <;>
      simp_all

/-- Witness for C3: a single classified single. -/
theorem C3_classified_flags_witness :
    (classifyRow true
        { game_date := 7, inning_topbot := "Top", home_team := 3, away_team := 1,
          events := some "single", rbi := some 2 } "single").TB =
      1 * (classifyRow true
        { game_date := 7, inning_topbot := "Top", home_team := 3, away_team := 1,
          events := some "single", rbi := some 2 } "single").B1 +
      2 * (classifyRow true
        { game_date := 7, inning_topbot := "Top", home_team := 3, away_team := 1,
          events := some "single", rbi := some 2 } "single").B2 +
      3 * (classifyRow true
        { game_date := 7, inning_topbot := "Top", home_team := 3, away_team := 1,
          events := some "single", rbi := some 2 } "single").B3 +
      4 * (classifyRow true
        { game_date := 7, inning_topbot := "Top", home_team := 3, away_team := 1,
          events := some "single", rbi := some 2 } "single").HR :=
  (C3_classified_flags
    { hasEventsCol := true, hasRbiCol := true,
      rows := [{ game_date := 7, inning_topbot := "Top", home_team := 3, away_team := 1,
                 events := some "single", rbi := some 2 }] }
    _ (by decide)).2.2.2.2.2.1

/-- C6: empty input (or a missing `events` column) yields the empty — but
fully-typed — classified result, and the Aggregator on that empty result
yields the empty `GameStatLine` sequence rather than failing. -/
theorem C6_empty_input (d : RawData) (h : d.rows = [] ∨ d.hasEventsCol = false) :
    get_statcast_data d = [] ∧ game_stats (get_statcast_data d) = [] := by
  have h0 : get_statcast_data d = [] := by
    unfold get_statcast_data
    rcases h with h | h <;> simp [h]
  exact ⟨h0, by rw [h0]; rfl⟩

/-- Witness for C6: the empty raw dataframe. -/
theorem C6_empty_input_witness :
    get_statcast_data { hasEventsCol := true, hasRbiCol := true, rows := [] } = [] ∧
    game_stats (get_statcast_data
      { hasEventsCol := true, hasRbiCol := true, rows := [] }) = [] :=
  C6_empty_input { hasEventsCol := true, hasRbiCol := true, rows := [] } (Or.inl rfl)

/-- C8: a record whose `rbi` is absent (no `rbi` column) or unparsable
(`none`) is classified with `RBI = 0`, is still present in the classifier's
output, and keeps all its other fields (date, teams, outcome flags) intact. -/
theorem C8_rbi_default (d : RawData) (r : RawEvent) (e : String)
    (hev : d.hasEventsCol = true) (hne : d.rows ≠ []) (hr : r ∈ d.rows)
    (he : r.events = some e) :
    classifyRow d.hasRbiCol r e ∈ get_statcast_data d ∧
    ((d.hasRbiCol = false ∨ r.rbi = none) → (classifyRow d.hasRbiCol r e).RBI = 0) ∧
    (classifyRow d.hasRbiCol r e).game_date = r.game_date ∧
    (classifyRow d.hasRbiCol r e).player_team =
      (if r.inning_topbot = "Top" then r.away_team else r.home_team) ∧
    (classifyRow d.hasRbiCol r e).opponent =
      (if r.inning_topbot = "Top" then r.home_team else r.away_team) ∧
    (classifyRow d.hasRbiCol r e).B1 = (if e = "single" then 1 else 0) ∧
    (classifyRow d.hasRbiCol r e).HR = (if e = "home_run" then 1 else 0) := by
  refine ⟨?_, ?_, rfl, rfl, rfl, rfl, rfl⟩
  · unfold get_statcast_data
    rw [if_neg (by simp [hne, hev])]
    exact List.mem_filterMap.mpr ⟨r, hr, by rw [he]; rfl⟩
  · intro h
    unfold classifyRow
    rcases h with h | h
    · simp [h]
    · cases hb : d.hasRbiCol <;> simp [h]

/-- Witness for C8: a row with an unparsable `rbi` (modelled `none`) is kept
and gets `RBI = 0`. -/
theorem C8_rbi_default_witness :
    classifyRow true
        { game_date := 7, inning_topbot := "Bot", home_team := 3, away_team := 1,
          events := some "double", rbi := none } "double" ∈
      get_statcast_data
        { hasEventsCol := true, hasRbiCol := true,
          rows := [{ game_date := 7, inning_topbot := "Bot", home_team := 3, away_team := 1,
                     events := some "double", rbi := none }] } ∧
    (classifyRow true
        { game_date := 7, inning_topbot := "Bot", home_team := 3, away_team := 1,
          events := some "double", rbi := none } "double").RBI = 0 := by
  have h := C8_rbi_default
    { hasEventsCol := true, hasRbiCol := true,
      rows := [{ game_date := 7, inning_topbot := "Bot", home_team := 3, away_team := 1,
                 events := some "double", rbi := none }] }
    { game_date := 7, inning_topbot := "Bot", home_team := 3, away_team := 1,
      events := some "double", rbi := none } "double"
    rfl (by decide) (by decide) rfl
  exact ⟨h.1, h.2.1 (Or.inr rfl)⟩

/-- C7 counterexample: with a single game `[5]` and threshold 0 every game is
a hit, yet the fixed denominators make the reported percentages 10%, 20% and
33% — not 100% for all three windows as the claim states. -/
theorem C7_zero_threshold_counterexample :
    (∀ v ∈ ([5] : List Int), 0 ≤ v) ∧
    (hit_rate_row [5] 0).count10 = 1 ∧
    (hit_rate_row [5] 0).pct10 = 10 ∧
    (hit_rate_row [5] 0).pct5 = 20 ∧
    (hit_rate_row [5] 0).pct3 = 33 ∧
    ¬((hit_rate_row [5] 0).pct10 = 100 ∧ (hit_rate_row [5] 0).pct5 = 100 ∧
      (hit_rate_row [5] 0).pct3 = 100) := by
  decide

/-- C7 amended: with threshold 0 and non-negative category values every game
is marked a hit (each window's count equals the full number of available
games, capped at the window size), and the window-`W` percentage is 100%
exactly when at least `W` games are available; with fewer games the fixed
denominator keeps it below 100%. -/
theorem C7_zero_threshold_amended (values : List Int) (h : ∀ v ∈ values, 0 ≤ v) :
    (values.map fun v => decide ((0 : Int) ≤ v)) = List.replicate values.length true ∧
    (hit_rate_row values 0).count10 = min 10 values.length ∧
    (hit_rate_row values 0).count5 = min 5 values.length ∧
    (hit_rate_row values 0).count3 = min 3 values.length ∧
    (10 ≤ values.length → (hit_rate_row values 0).pct10 = 100) ∧
    (5 ≤ values.length → (hit_rate_row values 0).pct5 = 100) ∧
    (3 ≤ values.length → (hit_rate_row values 0).pct3 = 100) ∧
    (∀ ts : List Int, 0 ∈ ts → hit_rate_row values 0 ∈ calculate_hit_rates values ts) ∧
    (values.length < 10 → (hit_rate_row values 0).pct10 = 10 * values.length ∧
      (hit_rate_row values 0).pct10 < 100) ∧
    (values.length < 5 → (hit_rate_row values 0).pct5 = 20 * values.length ∧
      (hit_rate_row values 0).pct5 < 100) ∧
    (values.length < 3 → (hit_rate_row values 0).pct3 < 100) := by
  have hmask : (values.map fun v => decide ((0 : Int) ≤ v)) =
      List.replicate values.length true := by
    refine List.eq_replicate_iff.mpr ⟨by simp, ?_⟩
    intro b hb
    simp only [List.mem_map] at hb
    obtain ⟨v, hv, rfl⟩ := hb
    simpa using h v hv
  have hcount : ∀ w : Nat,
      (ilocLast w (values.map fun v => decide ((0 : Int) ≤ v))).count true =
        min w values.length := by
    intro w
    rw [hmask]
    simp [ilocLast, List.drop_replicate]
    omega
  refine ⟨hmask, hcount 10, hcount 5, hcount 3, fun h10 => ?_, fun h5 => ?_, fun h3 => ?_,
    fun ts hts => List.mem_map_of_mem _ hts, fun hl10 => ?_, fun hl5 => ?_, fun hl3 => ?_⟩
  · have : (hit_rate_row values 0).pct10 = pctHalfEven (min 10 values.length) 10 :=
      congrArg (pctHalfEven · 10) (hcount 10)
    rw [this, Nat.min_eq_left h10]; decide
  · have : (hit_rate_row values 0).pct5 = pctHalfEven (min 5 values.length) 5 :=
      congrArg (pctHalfEven · 5) (hcount 5)
    rw [this, Nat.min_eq_left h5]; decide
  · have : (hit_rate_row values 0).pct3 = pctHalfEven (min 3 values.length) 3 :=
      congrArg (pctHalfEven · 3) (hcount 3)
    rw [this, Nat.min_eq_left h3]; decide
  · have hp : (hit_rate_row values 0).pct10 = pctHalfEven (min 10 values.length) 10 :=
      congrArg (pctHalfEven · 10) (hcount 10)
    rw [hp, Nat.min_eq_right (Nat.le_of_lt hl10)]
    constructor <;> (unfold pctHalfEven; split_ifs <;> omega)
  · have hp : (hit_rate_row values 0).pct5 = pctHalfEven (min 5 values.length) 5 :=
      congrArg (pctHalfEven · 5) (hcount 5)
    rw [hp, Nat.min_eq_right (Nat.le_of_lt hl5)]
    constructor <;> (unfold pctHalfEven; split_ifs <;> omega)
  · have hp : (hit_rate_row values 0).pct3 = pctHalfEven (min 3 values.length) 3 :=
      congrArg (pctHalfEven · 3) (hcount 3)
    rw [hp, Nat.min_eq_right (Nat.le_of_lt hl3)]
    unfold pctHalfEven
    split_ifs <;> omega

/-- Witness for the amended C7: ten games, threshold 0 — all three windows
report 100%; with a single game the last-10 percentage stays below 100%. -/
theorem C7_zero_threshold_amended_witness :
    ((10 : Nat) ≤ ([1, 2, 3, 4, 5, 6, 7, 8, 9, 10] : List Int).length ∧
      (hit_rate_row [1, 2, 3, 4, 5, 6, 7, 8, 9, 10] 0).pct10 = 100) ∧
    (([5] : List Int).length < 10 ∧ (hit_rate_row [5] 0).pct10 < 100) :=
  ⟨⟨by decide,
    (C7_zero_threshold_amended [1, 2, 3, 4, 5, 6, 7, 8, 9, 10]
      (by decide)).2.2.2.2.1 (by decide)⟩,
   ⟨by decide,
    ((C7_zero_threshold_amended [5] (by decide)).2.2.2.2.2.2.2.2.1 (by decide)).2⟩⟩

/-- C9: for a fixed game sequence, raising the threshold can only lower the
hit count in each of the three windows. -/
theorem C9_trend_antitone (values : List Int) (t1 t2 : Int) (h : t1 ≤ t2) :
    (hit_rate_row values t2).count10 ≤ (hit_rate_row values t1).count10 ∧
    (hit_rate_row values t2).count5 ≤ (hit_rate_row values t1).count5 ∧
    (hit_rate_row values t2).count3 ≤ (hit_rate_row values t1).count3 := by
  have mono : ∀ x ∈ values.rtake 10, decide (t2 ≤ x) = true → decide (t1 ≤ x) = true := by
    intro x _ hx
    simp only [decide_eq_true_eq] at hx ⊢
    omega
  refine ⟨?_, ?_, ?_⟩
  · rw [hit_rate_row_count10, hit_rate_row_count10]
    exact List.countP_mono_left mono
  · rw [hit_rate_row_count5, hit_rate_row_count5]
    exact List.countP_mono_left fun x _ hx => by
      simp only [decide_eq_true_eq] at hx ⊢; omega
  · rw [hit_rate_row_count3, hit_rate_row_count3]
    exact List.countP_mono_left fun x _ hx => by
      simp only [decide_eq_true_eq] at hx ⊢; omega

/-- Witness for C9 at thresholds 1 ≤ 2 on the games `[0, 1, 2]`. -/
theorem C9_trend_antitone_witness :
    (1 : Int) ≤ 2 ∧
    (hit_rate_row [0, 1, 2] 2).count3 ≤ (hit_rate_row [0, 1, 2] 1).count3 :=
  ⟨by decide, (C9_trend_antitone [0, 1, 2] 1 2 (by decide)).2.2⟩

theorem roundHalfEven_mono {x y : ℚ} (h : x ≤ y) : roundHalfEven x ≤ roundHalfEven y := by
  unfold roundHalfEven
  have hf : ⌊x⌋ ≤ ⌊y⌋ := Int.floor_le_floor h
  rcases lt_or_eq_of_le hf with hlt | heq
  · split_ifs <;> linarith
  · rw [← heq]
    split_ifs <;> linarith

theorem round2_mono {x y : ℚ} (h : x ≤ y) : round2 x ≤ round2 y := by
  unfold round2
  have h1 : roundHalfEven (x * 100) ≤ roundHalfEven (y * 100) :=
    roundHalfEven_mono (by linarith)
  have h2 : ((roundHalfEven (x * 100) : ℤ) : ℚ) ≤ ((roundHalfEven (y * 100) : ℤ) : ℚ) := by
    exact_mod_cast h1
  linarith

/-- C10: the Predictor is monotone in each of its three arguments — the
positive weights and the rounding step both preserve order. -/
theorem C10_predictor_monotone (s1 v1 r1 s2 v2 r2 : ℚ)
    (hs : s1 ≤ s2) (hv : v1 ≤ v2) (hr : r1 ≤ r2) :
    predict_next_game_stat s1 v1 r1 ≤ predict_next_game_stat s2 v2 r2 := by
  unfold predict_next_game_stat
  apply round2_mono
  have c1 : s1 * 0.4 ≤ s2 * 0.4 := by linarith
  have c2 : v1 * 0.3 ≤ v2 * 0.3 := by linarith
  have c3 : r1 * 0.3 ≤ r2 * 0.3 := by linarith
  linarith

/-- Witness for C10 at `(0, 0, 0) ≤ (1, 2, 3)`. -/
theorem C10_predictor_monotone_witness :
    (0 : ℚ) ≤ 1 ∧ (0 : ℚ) ≤ 2 ∧ (0 : ℚ) ≤ 3 ∧
    predict_next_game_stat 0 0 0 ≤ predict_next_game_stat 1 2 3 :=
  ⟨by norm_num, by norm_num, by norm_num,
    C10_predictor_monotone 0 0 0 1 2 3 (by norm_num) (by norm_num) (by norm_num)⟩

theorem game_stats_map_key (events : List ClassifiedEvent) :
    (game_stats events).map (fun l => (l.game_date, l.opponent)) = groupKeys events := by
  unfold game_stats
  rw [List.map_map]
  have : ((fun l : GameStatLine => (l.game_date, l.opponent)) ∘ fun k => sumGroup k events) =
      id := funext fun k => rfl
  rw [this, List.map_id]

theorem groupKeys_nodup (events : List ClassifiedEvent) : (groupKeys events).Nodup :=
  (List.perm_insertionSort keyLE _).symm.nodup (List.nodup_dedup _)

theorem groupKeys_sorted (events : List ClassifiedEvent) :
    List.Pairwise keyLE (groupKeys events) :=
  List.sorted_insertionSort keyLE _

theorem game_stats_pairwise_date (events : List ClassifiedEvent) :
    List.Pairwise (fun a b : GameStatLine => a.game_date ≤ b.game_date)
      (game_stats events) := by
  unfold game_stats
  rw [List.pairwise_map]
  refine (groupKeys_sorted events).imp ?_
  intro a b hab
  show a.1 ≤ b.1
  rcases hab with h | h
  · exact le_of_lt h
  · exact le_of_eq h.1

theorem last_games_eq_drop (k : Nat) (lines : List GameStatLine) :
    last_games k lines = lines.drop (lines.length - k) := by
  unfold last_games
  rw [← List.rtake_eq_reverse_take_reverse]
  rfl

/-- C4: the Aggregator produces one line per distinct `(game_date, opponent)`
pair (no pair appears twice), each line the field-wise sum of that group's
events, sorted ascending by game date; every event's pair is represented;
taking the last `K` games keeps the most recent `K` lines (a suffix of the
ascending list, every dropped line no later than every kept line, still
ascending); and two same-date same-opponent plate appearances — a single
(`TB = 1`) and a home run (`TB = 4`) — collapse into one line with `TB = 5`,
`H = 2`. -/
theorem C4_aggregator (events : List ClassifiedEvent) :
    ((game_stats events).map (fun l => (l.game_date, l.opponent))).Nodup ∧
    List.Pairwise (fun a b : GameStatLine => a.game_date ≤ b.game_date)
      (game_stats events) ∧
    (∀ l ∈ game_stats events, l = sumGroup (l.game_date, l.opponent) events) ∧
    (∀ c ∈ events, (c.game_date, c.opponent) ∈
      (game_stats events).map (fun l => (l.game_date, l.opponent))) ∧
    (∀ k, last_games k (game_stats events) =
      (game_stats events).drop ((game_stats events).length - k)) ∧
    (∀ k, ∀ a ∈ (game_stats events).take ((game_stats events).length - k),
      ∀ b ∈ last_games k (game_stats events), a.game_date ≤ b.game_date) ∧
    (∀ k, List.Pairwise (fun a b : GameStatLine => a.game_date ≤ b.game_date)
      (last_games k (game_stats events))) ∧
    game_stats
        [{ game_date := 7, player_team := 1, opponent := 3, B1 := 1, B2 := 0, B3 := 0,
           HR := 0, TB := 1, H := 1, RBI := 0 },
         { game_date := 7, player_team := 1, opponent := 3, B1 := 0, B2 := 0, B3 := 0,
           HR := 1, TB := 4, H := 1, RBI := 2 }] =
      [{ game_date := 7, opponent := 3, B1 := 1, B2 := 0, B3 := 0,
         HR := 1, TB := 5, H := 2, RBI := 2 }] := by
  have hpair := game_stats_pairwise_date events
  refine ⟨?_, hpair, ?_, ?_, fun k => last_games_eq_drop k _, fun k a ha b hb => ?_,
    fun k => ?_, by decide⟩
  · rw [game_stats_map_key]
    exact groupKeys_nodup events
  · intro l hl
    obtain ⟨kk, hk, rfl⟩ := List.mem_map.mp hl
    rfl
  · intro c hc
    rw [game_stats_map_key]
    unfold groupKeys
    exact (List.perm_insertionSort keyLE _).mem_iff.mpr
      (List.mem_dedup.mpr (List.mem_map_of_mem keyOf hc))
  · rw [last_games_eq_drop] at hb
    have hsplit := (List.pairwise_append.mp
      (by rw [List.take_append_drop ((game_stats events).length - k)]; exact hpair)).2.2
    exact hsplit a ha b hb
  · rw [last_games_eq_drop]
    exact (List.pairwise_append.mp
      (by rw [List.take_append_drop ((game_stats events).length - k)]; exact hpair)).2.1

/-- Witness for C4: the double-header scenario, with the per-line sum
conjunct instantiated at the produced line. -/
theorem C4_aggregator_witness :
    ({ game_date := 7, opponent := 3, B1 := 1, B2 := 0, B3 := 0, HR := 1, TB := 5,
       H := 2, RBI := 2 } : GameStatLine) =
      sumGroup (7, 3)
        [{ game_date := 7, player_team := 1, opponent := 3, B1 := 1, B2 := 0, B3 := 0,
           HR := 0, TB := 1, H := 1, RBI := 0 },
         { game_date := 7, player_team := 1, opponent := 3, B1 := 0, B2 := 0, B3 := 0,
           HR := 1, TB := 4, H := 1, RBI := 2 }] :=
  (C4_aggregator
    [{ game_date := 7, player_team := 1, opponent := 3, B1 := 1, B2 := 0, B3 := 0,
       HR := 0, TB := 1, H := 1, RBI := 0 },
     { game_date := 7, player_team := 1, opponent := 3, B1 := 0, B2 := 0, B3 := 0,
       HR := 1, TB := 4, H := 1, RBI := 2 }]).2.2.1
    { game_date := 7, opponent := 3, B1 := 1, B2 := 0, B3 := 0, HR := 1, TB := 5,
      H := 2, RBI := 2 } (by decide)

theorem insertionSort_ne_nil {α : Type} (r : α → α → Prop) [DecidableRel r]
    (l : List α) (h : l ≠ []) : l.insertionSort r ≠ [] := by
  intro hnil
  have p : l.Perm (l.insertionSort r) := (List.perm_insertionSort r l).symm
  rw [hnil] at p
  exact h p.eq_nil

theorem meanQ_ne_nil (l : List ℚ) (h : l ≠ []) : ∃ q, meanQ l = some q := by
  unfold meanQ
  rw [if_neg (by simpa [List.isEmpty_iff] using h)]
  exact ⟨_, rfl⟩

theorem perDateSums_ne_nil (f : ClassifiedEvent → Int) (events : List ClassifiedEvent)
    (h : events ≠ []) : perDateSums f events ≠ [] := by
  unfold perDateSums dateKeys
  simp only [ne_eq, List.map_eq_nil_iff]
  exact insertionSort_ne_nil _ _ (by simpa [List.dedup_eq_nil, List.map_eq_nil_iff] using h)

theorem game_stats_ne_nil (events : List ClassifiedEvent) (h : events ≠ []) :
    game_stats events ≠ [] := by
  unfold game_stats groupKeys
  simp only [ne_eq, List.map_eq_nil_iff]
  exact insertionSort_ne_nil _ _ (by simpa [List.dedup_eq_nil, List.map_eq_nil_iff] using h)

theorem last_games_ne_nil (lines : List GameStatLine) (h : lines ≠ []) :
    last_games 10 lines ≠ [] := by
  unfold last_games
  simp [List.reverse_eq_nil_iff, List.take_eq_nil_iff, h]

/-- C5 counterexample: one statcast event but no games against the filtered
opponent.  The vs-opponent input is indeed zeroed, yet the recent average —
`game_stats[cat].mean()` over the *filtered* (empty) frame — is NaN, so the
Predictor's output is NaN (`none`), not a defined number. -/
theorem C5_predictor_undefined_counterexample :
    vs_team_avg (·.HR) [] = some 0 ∧
    recent_avg (·.HR) [] = none ∧
    stat_line (·.HR) (·.HR)
      [{ game_date := 7, player_team := 1, opponent := 3, B1 := 1, B2 := 0, B3 := 0,
         HR := 0, TB := 1, H := 1, RBI := 0 }] [] = none := by
  refine ⟨by simp [vs_team_avg], ?_, ?_⟩
  · simp [recent_avg, last_games, game_stats, groupKeys, meanQ]
  · simp [stat_line, recent_avg, last_games, game_stats, groupKeys, meanQ]

/-- C5 amended: when no games exist against the filtered opponent, only the
vs-opponent input is replaced by 0; the recent average, computed from the
same empty filtered frame, stays undefined (NaN) and so does the prediction.
The Predictor returns a defined number exactly when both the full statcast
frame and the filtered frame are non-empty. -/
theorem C5_predictor_undefined_amended (f : ClassifiedEvent → Int) (g : GameStatLine → Int)
    (statcast df_filtered : List ClassifiedEvent) :
    (df_filtered = [] →
      vs_team_avg f df_filtered = some 0 ∧
      recent_avg g df_filtered = none ∧
      stat_line f g statcast df_filtered = none) ∧
    (statcast ≠ [] → df_filtered ≠ [] →
      ∃ q, stat_line f g statcast df_filtered = some q) := by
  constructor
  · intro hfl
    subst hfl
    have hrec : recent_avg g ([] : List ClassifiedEvent) = none := by
      simp [recent_avg, last_games, game_stats, groupKeys, meanQ]
    refine ⟨by simp [vs_team_avg], hrec, ?_⟩
    unfold stat_line
    rw [hrec]
    rcases season_avg f statcast with _ | s <;>
      rcases vs_team_avg f ([] : List ClassifiedEvent) with _ | v <;> rfl
  · intro hsc hfl
    obtain ⟨s, hs⟩ := meanQ_ne_nil _ (perDateSums_ne_nil f statcast hsc)
    obtain ⟨v, hv⟩ := meanQ_ne_nil _ (perDateSums_ne_nil f df_filtered hfl)
    obtain ⟨r, hr⟩ := meanQ_ne_nil
      ((last_games 10 (game_stats df_filtered)).map fun l => ((g l : ℤ) : ℚ))
      (by
        simp only [ne_eq, List.map_eq_nil_iff]
        exact last_games_ne_nil _ (game_stats_ne_nil df_filtered hfl))
    have hv' : vs_team_avg f df_filtered = some v := by
      unfold vs_team_avg
      rw [if_neg (by simpa [List.isEmpty_iff] using hfl)]
      exact hv
    refine ⟨predict_next_game_stat s v r, ?_⟩
    unfold stat_line season_avg recent_avg
    rw [hs, hv', hr]

/-- Witness for the amended C5: with one event and an empty filtered frame
the prediction is `none`; filtering that finds the event gives a defined
prediction. -/
theorem C5_predictor_undefined_amended_witness :
    stat_line (·.HR) (·.HR)
      [{ game_date := 7, player_team := 1, opponent := 3, B1 := 1, B2 := 0, B3 := 0,
         HR := 0, TB := 1, H := 1, RBI := 0 }] [] = none ∧
    ∃ q, stat_line (·.HR) (·.HR)
      [{ game_date := 7, player_team := 1, opponent := 3, B1 := 1, B2 := 0, B3 := 0,
         HR := 0, TB := 1, H := 1, RBI := 0 }]
      [{ game_date := 7, player_team := 1, opponent := 3, B1 := 1, B2 := 0, B3 := 0,
         HR := 0, TB := 1, H := 1, RBI := 0 }] = some q :=
  ⟨((C5_predictor_undefined_amended (·.HR) (·.HR)
      [{ game_date := 7, player_team := 1, opponent := 3, B1 := 1, B2 := 0, B3 := 0,
         HR := 0, TB := 1, H := 1, RBI := 0 }] []).1 rfl).2.2,
    (C5_predictor_undefined_amended (·.HR) (·.HR)
      [{ game_date := 7, player_team := 1, opponent := 3, B1 := 1, B2 := 0, B3 := 0,
         HR := 0, TB := 1, H := 1, RBI := 0 }]
      [{ game_date := 7, player_team := 1, opponent := 3, B1 := 1, B2 := 0, B3 := 0,
         HR := 0, TB := 1, H := 1, RBI := 0 }]).2 (by simp) (by simp)⟩

end MLBAPP
